import Mathlib

/-!
Verification of the alarm ingestion and enrichment pipeline of the
WebScoketToApi repository (FastAPI + websockets bridge from a fleet-tracking
platform to a SOAP sink).

The Python sources are shallowly embedded:

* strings are Lean `String` / `List Char`;
* Python dictionaries coming from JSON are embedded as structures whose
  fields are `Option String` (a missing key is `none`; JSON values are
  modelled by the string Python's `str()` would render them as);
* exceptions are `Except`;
* the network is an oracle parameter: each HTTP interaction is a value
  describing the response the remote side would give (`none` models a
  body that is not decodable as JSON);
* the mutable singleton `state.STATE` is threaded explicitly.
-/

/-! ## Python string primitives -/

/-- Python whitespace characters as recognised by `str.strip()`
(space, tab, newline, carriage return, vertical tab, form feed). -/
def pyIsSpace (c : Char) : Bool :=
  c = ' ' || c = '\t' || c = '\n' || c = '\r' || c = '\x0b' || c = '\x0c'

/-- Model of Python `s.strip() == ""`: every character is whitespace. -/
def pyStripEmpty (l : List Char) : Bool :=
  l.all pyIsSpace

/-- Model of Python `str.strip()` on a character list. -/
def pyStripList (l : List Char) : List Char :=
  ((l.dropWhile pyIsSpace).reverse.dropWhile pyIsSpace).reverse

/-- Model of Python `str.strip()` on a `String`. -/
def pyStrip (s : String) : String :=
  ⟨pyStripList s.data⟩

/-- ASCII model of Python `str.lower()` on one character. -/
def pyLowerChar (c : Char) : Char :=
  if c.isUpper then Char.ofNat (c.toNat + 32) else c

/-- ASCII model of Python `str.lower()`. -/
def pyLower (s : String) : String :=
  ⟨s.data.map pyLowerChar⟩

/-- Model of Python `str(x)` applied to a value read from a dict with
`.get`: a present value renders as itself, an absent one is `None` and
renders as the string `"None"`. -/
def pyStr : Option String → String
  | none => "None"
  | some s => s

/-- Model of Python `str(d.get(k, default))`: the default is used when the
key is absent. -/
def pyStrD (v : Option String) (default : String) : String :=
  match v with
  | none => default
  | some s => s

/-- Python truthiness of a value that is either absent (`None`, falsy) or a
string (truthy iff non-empty). -/
def pyTruthy : Option String → Bool
  | none => false
  | some s => s ≠ ""

/-! ## Framing (src/App/ws.py, receive loop)

The listener keeps a string `buffer`, appends each received chunk to it and
then runs

  while "#" in buffer:
      chunk, buffer = buffer.split("#", 1)
      if not chunk.strip():
          continue
      ... process chunk ...

`splitFirstHash` is `buffer.split("#", 1)` restricted to the case where the
delimiter occurs (the `while` guard); `drainBuffer` is the whole `while`
loop, returning the processed (non-blank) frames in order together with the
final buffer; `processStream` is the `async for` loop over received chunks.
-/

/-- Model of `buffer.split("#", 1)` when `"#" in buffer` (returns the text
before the first `'#'` and the text after it), and of the `while` guard
itself (`none` when the buffer holds no `'#'`). -/
def splitFirstHash : List Char → Option (List Char × List Char)
  | [] => none
  | c :: cs =>
    if c = '#' then some ([], cs)
    else
      match splitFirstHash cs with
      | none => none
      | some (a, b) => some (c :: a, b)

def splitFirstHash_length :
    ∀ {l a b : List Char}, splitFirstHash l = some (a, b) → b.length < l.length := by
  intro l
  induction l with
  | nil => intro a b h; simp [splitFirstHash] at h
  | cons c cs ih =>
    intro a b h
    rw [splitFirstHash] at h
    by_cases hc : c = '#'
    · rw [if_pos hc] at h
      obtain ⟨rfl, rfl⟩ : [] = a ∧ cs = b := by
        simpa using h
      simp
    · rw [if_neg hc] at h
      cases hsp : splitFirstHash cs with
      | none => rw [hsp] at h; simp at h
      | some p =>
        obtain ⟨a', b'⟩ := p
        rw [hsp] at h
        obtain ⟨rfl, rfl⟩ : c :: a' = a ∧ b' = b := by
          simpa using h
        have := ih hsp
        simp
        omega

/-- Model of the listener's `while "#" in buffer` loop: extract every frame
terminated by `'#'`, skipping frames that are blank after `strip()`, and
return the processed frames together with the remaining buffer. -/
def drainBuffer (buf : List Char) : List (List Char) × List Char :=
  match h : splitFirstHash buf with
  | none => ([], buf)
  | some (chunk, rest) =>
    let r := drainBuffer rest
    (if pyStripEmpty chunk then r.1 else chunk :: r.1, r.2)
termination_by buf.length
decreasing_by exact splitFirstHash_length h

/-- Model of the listener's `async for message in ws` receive loop, starting
from a given buffer: each chunk is appended to the buffer, which is then
drained; the processed frames of all chunks are concatenated in order. -/
def processStream (buffer : List Char) : List (List Char) → List (List Char) × List Char
  | [] => ([], buffer)
  | m :: ms =>
    let r := drainBuffer (buffer ++ m)
    let r2 := processStream r.2 ms
    (r.1 ++ r2.1, r2.2)

/-! ## Data model (src/App/state.py and the platform JSON payloads)

Records coming from platform JSON are embedded as structures of
`Option String` fields (a missing dict key is `none`). The streaming
endpoint descriptors and the SignIn user-configuration blob are never
inspected by the code under verification, so they are kept abstract.
-/

abbrev Endpoint : Type := String

abbrev UserConfig : Type := String

structure Vehicle where
  SystemNo : Option String
  Name : Option String
deriving DecidableEq, Repr

structure AlarmTypeEntry where
  AlarmTypeID : Option String
  Content : Option String
deriving DecidableEq, Repr

structure Zone where
  ZoneID : Option String
  ZoneName : Option String
deriving DecidableEq, Repr

structure Route where
  RouteID : Option String
  RouteName : Option String
deriving DecidableEq, Repr

/-- Model of the process-wide singleton `state.STATE` (src/App/state.py),
threaded explicitly. The Python class declares class-level defaults for
`token`, `user_config`, `transfer_endpoints`, `vehicle_data` and
`alarm_types` but declares no `geofences` or `routes` attribute: those
attributes exist only once `platform.get_geofences` / `get_routes` has
assigned them, and reading them before that raises AttributeError. This is
modelled with `Option`, `none` meaning the attribute is missing. The
`ws_tasks` list is irrelevant to the claims and omitted. -/
structure St where
  token : Option String
  user_config : Option UserConfig
  transfer_endpoints : List Endpoint
  vehicle_data : List Vehicle
  alarm_types : List AlarmTypeEntry
  geofences : Option (List Zone)
  routes : Option (List Route)
deriving DecidableEq, Repr

/-- The state at process start: the class-level defaults of `State`. -/
def initState : St :=
  { token := none, user_config := none, transfer_endpoints := []
    vehicle_data := [], alarm_types := [], geofences := none, routes := none }

/-- Python exceptions observable in the modelled code. -/
inductive PyErr where
  | runtimeError (msg : String)
  | attributeError
deriving DecidableEq, Repr

/-- A decoded platform JSON envelope: the `State` status field plus the
payload under `Data`. An undecodable body is modelled as `none` at the use
sites (`resp : Option (FetchEnv α)`). -/
structure FetchEnv (α : Type) where
  State : Option String
  Data : Option α

/-- The SignIn response envelope carries a `Token` besides `State`/`Data`. -/
structure SignInResp where
  State : Option String
  Token : Option String
  Data : Option UserConfig

/-! ## Platform Session (src/App/platform.py) -/

/-- src/App/platform.py `sign_in`: `platform_submit` raises on a body that
is not decodable as JSON; a `State` other than "0" raises; otherwise the
returned token and user configuration are stored into the session state.
The pair returned is (exception or unit, the session state after the call);
on the raising paths the state is returned unchanged because both raises
happen before any assignment to `state.STATE`. -/
def sign_in (st : St) (resp : Option SignInResp) : Except PyErr Unit × St :=
  match resp with
  | none => (.error (.runtimeError "Non-JSON response"), st)
  | some data =>
    if pyStr data.State != "0" then (.error (.runtimeError "SignIn failed"), st)
    else (.ok (), { st with token := data.Token, user_config := data.Data })

/-- The GetMyTracker payload: `Transfer` endpoints and `Tracker` vehicles. -/
structure TrackerData where
  Transfer : Option (List Endpoint)
  Tracker : Option (List Vehicle)

/-- src/App/platform.py `get_my_tracker`: on success replaces
`transfer_endpoints` and `vehicle_data` wholesale with the fetched snapshot
(`public_data.get(k, []) or []` turns an absent or null field into `[]`). -/
def get_my_tracker (st : St) (resp : Option (FetchEnv TrackerData)) : Except PyErr St :=
  match resp with
  | none => .error (.runtimeError "Non-JSON response")
  | some data =>
    if pyStr data.State != "0" then .error (.runtimeError "GetMyTracker failed")
    else
      .ok { st with
        transfer_endpoints := (data.Data.bind (·.Transfer)).getD []
        vehicle_data := (data.Data.bind (·.Tracker)).getD [] }

/-- src/App/platform.py `get_alarm_types`: on success replaces
`alarm_types` wholesale with the fetched snapshot (`data.get("Data") or []`). -/
def get_alarm_types (st : St) (resp : Option (FetchEnv (List AlarmTypeEntry))) :
    Except PyErr St :=
  match resp with
  | none => .error (.runtimeError "Non-JSON response")
  | some data =>
    if pyStr data.State != "0" then .error (.runtimeError "Get AlarmType failed")
    else .ok { st with alarm_types := data.Data.getD [] }

/-- src/App/platform.py `get_geofences`: on success replaces `geofences`
wholesale with the fetched snapshot (creating the attribute). -/
def get_geofences (st : St) (resp : Option (FetchEnv (List Zone))) : Except PyErr St :=
  match resp with
  | none => .error (.runtimeError "Non-JSON SafeZone response")
  | some data =>
    if pyStr data.State != "0" then .error (.runtimeError "Get SafeZone failed")
    else .ok { st with geofences := some (data.Data.getD []) }

/-- src/App/platform.py `get_routes`: on success replaces `routes`
wholesale with the fetched snapshot (creating the attribute). -/
def get_routes (st : St) (resp : Option (FetchEnv (List Route))) : Except PyErr St :=
  match resp with
  | none => .error (.runtimeError "Non-JSON Route response")
  | some data =>
    if pyStr data.State != "0" then .error (.runtimeError "Get Route failed")
    else .ok { st with routes := some (data.Data.getD []) }

/-! ## Timestamp parsing (src/App/services.py `to_xsd_datetime`)

The code tries `datetime.fromisoformat(val.replace("Z", ""))` when the
value contains a 'T' and `datetime.strptime(val, "%Y-%m-%d %H:%M:%S")`
otherwise, catching every parse error to None. Both CPython parsers are
modelled below on their naive-datetime fragment (timezone offsets are not
modelled; the feed's timestamps carry none).
-/

structure PyDateTime where
  year : Nat
  month : Nat
  day : Nat
  hour : Nat
  minute : Nat
  second : Nat
  microsecond : Nat
deriving DecidableEq, Repr

def isLeapYear (y : Nat) : Bool :=
  (y % 4 == 0 && y % 100 != 0) || y % 400 == 0

def daysInMonth (y m : Nat) : Nat :=
  if m == 2 then (if isLeapYear y then 29 else 28)
  else if m == 4 || m == 6 || m == 9 || m == 11 then 30
  else 31

/-- The `datetime` constructor's validation of a date. -/
def validDate (y m d : Nat) : Bool :=
  1 ≤ y && y ≤ 9999 && 1 ≤ m && m ≤ 12 && 1 ≤ d && d ≤ daysInMonth y m

/-- The `datetime` constructor's validation of a time of day. -/
def validTime (hh mi s : Nat) : Bool :=
  hh ≤ 23 && mi ≤ 59 && s ≤ 59

def parseDigitsAux : Nat → Nat → List Char → Option (Nat × List Char)
  | 0, acc, l => some (acc, l)
  | n + 1, acc, c :: l =>
    if c.isDigit then parseDigitsAux n (acc * 10 + (c.toNat - 48)) l else none
  | _ + 1, _, [] => none

/-- Parse exactly `n` digits. -/
def parseExactDigits (n : Nat) (l : List Char) : Option (Nat × List Char) :=
  parseDigitsAux n 0 l

/-- Model of a CPython `_strptime` numeric field regex of the shape
`1[0-2]|0[1-9]|[1-9]` : greedily consume two digits when their value lies in
`[lo, hi]`, else one digit when its value does. -/
def parse1or2 (lo hi : Nat) : List Char → Option (Nat × List Char)
  | c1 :: c2 :: rest =>
    if c1.isDigit && c2.isDigit then
      let v := (c1.toNat - 48) * 10 + (c2.toNat - 48)
      if lo ≤ v && v ≤ hi then some (v, rest)
      else
        let v1 := c1.toNat - 48
        if lo ≤ v1 && v1 ≤ hi then some (v1, c2 :: rest) else none
    else if c1.isDigit then
      let v1 := c1.toNat - 48
      if lo ≤ v1 && v1 ≤ hi then some (v1, c2 :: rest) else none
    else none
  | [c1] =>
    if c1.isDigit then
      let v1 := c1.toNat - 48
      if lo ≤ v1 && v1 ≤ hi then some (v1, []) else none
    else none
  | [] => none

def expectChar (c : Char) : List Char → Option (List Char)
  | x :: rest => if x = c then some rest else none
  | [] => none

/-- Model of `datetime.strptime(val, "%Y-%m-%d %H:%M:%S")`: `%Y` is exactly
four digits, the other fields one or two digits within their regex range,
the separators literal, nothing may remain, and the `datetime` constructor
validates the date. -/
def strptimeYmdHms (l : List Char) : Option PyDateTime := do
  let (y, l) ← parseExactDigits 4 l
  let l ← expectChar '-' l
  let (m, l) ← parse1or2 1 12 l
  let l ← expectChar '-' l
  let (d, l) ← parse1or2 1 31 l
  let l ← expectChar ' ' l
  let (hh, l) ← parse1or2 0 23 l
  let l ← expectChar ':' l
  let (mi, l) ← parse1or2 0 59 l
  let l ← expectChar ':' l
  let (s, l) ← parse1or2 0 59 l
  if l.isEmpty && validDate y m d then some ⟨y, m, d, hh, mi, s, 0⟩ else none

def parseIsoTime (l : List Char) : Option (Nat × Nat × Nat × Nat) := do
  let (hh, l) ← parseExactDigits 2 l
  match l with
  | [] => some (hh, 0, 0, 0)
  | ':' :: l => do
    let (mi, l) ← parseExactDigits 2 l
    match l with
    | [] => some (hh, mi, 0, 0)
    | ':' :: l => do
      let (s, l) ← parseExactDigits 2 l
      match l with
      | [] => some (hh, mi, s, 0)
      | '.' :: l =>
        match parseExactDigits 6 l with
        | some (us, []) => some (hh, mi, s, us)
        | _ =>
          match parseExactDigits 3 l with
          | some (ms, []) => some (hh, mi, s, ms * 1000)
          | _ => none
      | _ => none
    | _ => none
  | _ => none

/-- Model of `datetime.fromisoformat` on its naive fragment (the CPython
3.7-3.10 grammar: `YYYY-MM-DD`, optionally followed by any one separator
character and `HH[:MM[:SS[.fff[fff]]]]`, every field zero-padded). -/
def fromisoformat (l : List Char) : Option PyDateTime := do
  let (y, l) ← parseExactDigits 4 l
  let l ← expectChar '-' l
  let (m, l) ← parseExactDigits 2 l
  let l ← expectChar '-' l
  let (d, l) ← parseExactDigits 2 l
  match l with
  | [] => if validDate y m d then some ⟨y, m, d, 0, 0, 0, 0⟩ else none
  | _sep :: l =>
    match parseIsoTime l with
    | some (hh, mi, s, us) =>
      if validDate y m d && validTime hh mi s then
        some ⟨y, m, d, hh, mi, s, us⟩
      else none
    | none => none

/-- src/App/services.py `to_xsd_datetime`: an empty value yields None; a
value containing 'T' goes through `fromisoformat` after `replace("Z", "")`;
anything else through `strptime` with "%Y-%m-%d %H:%M:%S"; every parse
error is caught and yields None. -/
def to_xsd_datetime (val : String) : Option PyDateTime :=
  if val = "" then none
  else if val.data.contains 'T' then
    fromisoformat (val.data.filter (fun c => c ≠ 'Z'))
  else
    strptimeYmdHms val.data

/-! ## Value coercions (src/App/services.py helpers) -/

/-- src/App/services.py `to_bool`: with payload values modelled as strings
the `isinstance(val, bool)` branch does not arise and the function is
`str(val).strip().lower() in set("1", "true", "on", "yes")`. -/
def to_bool (val : Option String) : Bool :=
  let s := pyLower (pyStrip (pyStr val))
  s == "1" || s == "true" || s == "on" || s == "yes"

def stripSign : List Char → List Char
  | '+' :: r => r
  | '-' :: r => r
  | r => r

def decimalExpTail : List Char → Bool
  | [] => true
  | c :: rest =>
    (c = 'e' || c = 'E') &&
      (let r := stripSign rest
       r ≠ [] && r.all Char.isDigit)

/-- Validity of a `decimal.Decimal(str)` literal: optional surrounding
whitespace and sign, then NaN/Infinity (case-insensitive) or a digit string
with an optional decimal point and exponent. Diagnostic NaN payloads are
not modelled. -/
def isDecimalLiteral (s : String) : Bool :=
  let l := stripSign (pyStripList s.data)
  let low := l.map pyLowerChar
  if low = "nan".data || low = "inf".data || low = "infinity".data then true
  else
    let ip := l.takeWhile Char.isDigit
    let rest := l.dropWhile Char.isDigit
    match rest with
    | '.' :: frac =>
      let fp := frac.takeWhile Char.isDigit
      let rest2 := frac.dropWhile Char.isDigit
      (ip ≠ [] || fp ≠ []) && decimalExpTail rest2
    | _ => ip ≠ [] && decimalExpTail rest

/-- src/App/services.py `to_decimal`: None or "" yields None, otherwise
`Decimal(str(val))` with conversion errors caught to None. A successful
conversion is represented by the accepted literal itself. -/
def to_decimal (val : Option String) : Option String :=
  match val with
  | none => none
  | some s =>
    if s = "" then none
    else if isDecimalLiteral s then some s else none

/-- src/App/services.py `to_int`: None or "" yields None, otherwise
`int(str(val))` (optional surrounding whitespace and sign then digits;
underscore grouping is not modelled), errors caught to None. -/
def to_int (val : Option String) : Option Int :=
  match val with
  | none => none
  | some s =>
    if s = "" then none
    else
      let l := pyStripList s.data
      let neg := match l with | '-' :: _ => true | _ => false
      let l2 := stripSign l
      if l2 ≠ [] && l2.all Char.isDigit then
        let n := l2.foldl (fun acc c => acc * 10 + (c.toNat - 48)) 0
        some (if neg then -(n : Int) else (n : Int))
      else none

/-! ## Reference-cache lookups (src/App/services.py)

Each lookup scans its in-memory dataset, and on a miss refreshes the
dataset through the matching src/App/platform.py call and scans once more.
The returned triple is (result or raised exception, state after the call,
number of platform refresh calls performed).
-/

/-- The scan of `get_vehicle_by_system_no`:
`str(vehicle.get("SystemNo")) == str(system_no)`. -/
def findVehicle (vs : List Vehicle) (q : String) : Option Vehicle :=
  vs.find? (fun v => pyStr v.SystemNo == q)

/-- src/App/services.py `get_vehicle_by_system_no`. -/
def get_vehicle_by_system_no (st : St) (resp : Option (FetchEnv TrackerData))
    (system_no : Option String) : Except PyErr (Option Vehicle) × St × Nat :=
  let q := pyStr system_no
  match findVehicle st.vehicle_data q with
  | some v => (.ok (some v), st, 0)
  | none =>
    match get_my_tracker st resp with
    | .error e => (.error e, st, 1)
    | .ok st' => (.ok (findVehicle st'.vehicle_data q), st', 1)

/-- The scan of `get_alarm_type_by_id`:
`str(alarm.get("AlarmTypeID")) == str(alarm_type_id)`. -/
def findAlarm (al : List AlarmTypeEntry) (q : String) : Option AlarmTypeEntry :=
  al.find? (fun a => pyStr a.AlarmTypeID == q)

/-- src/App/services.py `get_alarm_type_by_id`. On a hit in the cached
dataset only the "Yaw Alarm" substitution is applied; on a hit after the
refresh both the "Yaw Alarm" and the "Engine Start Alarm" substitutions
are applied. -/
def get_alarm_type_by_id (st : St) (resp : Option (FetchEnv (List AlarmTypeEntry)))
    (alarm_type_id : String) : Except PyErr (Option String) × St × Nat :=
  match findAlarm st.alarm_types alarm_type_id with
  | some a =>
    let name := pyStrD a.Content ""
    (.ok (some (if name == "Yaw Alarm" then "Deviation Alarm" else name)), st, 0)
  | none =>
    match get_alarm_types st resp with
    | .error e => (.error e, st, 1)
    | .ok st' =>
      match findAlarm st'.alarm_types alarm_type_id with
      | some a =>
        let name := pyStrD a.Content ""
        (.ok (some (if name == "Yaw Alarm" then "Deviation Alarm"
                    else if name == "Engine Start Alarm" then "Movement Alarm"
                    else name)), st', 1)
      | none => (.ok none, st', 1)

/-- The scan of `get_geofence_name`:
`str(zone.get("ZoneID")).lower() == zone_id` for the lowercased query. -/
def findZone (zs : List Zone) (q : String) : Option Zone :=
  zs.find? (fun z => pyLower (pyStr z.ZoneID) == q)

/-- src/App/services.py `get_geofence_name`: the query is lowercased and
compared against the lowercased stored ZoneID. Reading `STATE.geofences`
raises AttributeError while the attribute does not exist. -/
def get_geofence_name (st : St) (resp : Option (FetchEnv (List Zone)))
    (zone_id : Option String) : Except PyErr (Option String) × St × Nat :=
  let q := pyLower (pyStr zone_id)
  match st.geofences with
  | none => (.error .attributeError, st, 0)
  | some zs =>
    match findZone zs q with
    | some z => (.ok z.ZoneName, st, 0)
    | none =>
      match get_geofences st resp with
      | .error e => (.error e, st, 1)
      | .ok st' =>
        match st'.geofences with
        | none => (.error .attributeError, st', 1)
        | some zs' =>
          match findZone zs' q with
          | some z => (.ok z.ZoneName, st', 1)
          | none => (.ok none, st', 1)

/-- The scan of `get_route_name`: `str(route.get("RouteID")) == str(route_id)`
for the lowercased query — the stored RouteID is compared without
lowercasing it. -/
def findRoute (rs : List Route) (q : String) : Option Route :=
  rs.find? (fun r => pyStr r.RouteID == q)

/-- src/App/services.py `get_route_name`: the query is lowercased but the
stored RouteID is not. Reading `STATE.routes` raises AttributeError while
the attribute does not exist. -/
def get_route_name (st : St) (resp : Option (FetchEnv (List Route)))
    (route_id : Option String) : Except PyErr (Option String) × St × Nat :=
  let q := pyLower (pyStr route_id)
  match st.routes with
  | none => (.error .attributeError, st, 0)
  | some rs =>
    match findRoute rs q with
    | some r => (.ok r.RouteName, st, 0)
    | none =>
      match get_routes st resp with
      | .error e => (.error e, st, 1)
      | .ok st' =>
        match st'.routes with
        | none => (.error .attributeError, st', 1)
        | some rs' =>
          match findRoute rs' q with
          | some r => (.ok r.RouteName, st', 1)
          | none => (.ok none, st', 1)

/-- src/App/services.py `reverse_geocode`: the whole HTTP lookup sits in a
try/except returning None, so a failed call (`.error`) degrades to `none`
and a successful call yields the optional `display_name` of the body. -/
def reverse_geocode (fetch : Except Unit (Option String)) : Option String :=
  match fetch with
  | .error _ => none
  | .ok displayName => displayName

/-! ## Enrichment and dispatch (src/App/services.py `push_to_soap`) -/

/-- The inbound alarm event: the JSON dict parsed from one framed message,
restricted to the keys the code reads. A value is the string Python's
`str()` renders it as; an absent key is `none`. -/
structure Payload where
  AlarmType : Option String
  SystemNo : Option String
  Latitude : Option String
  Longitude : Option String
  DateTime : Option String
  Velocity : Option String
  Angle : Option String
  Altitude : Option String
  Acc : Option String
  DigitStatus : Option String
  Temperature : Option String
  Mileage : Option String
  IsOriginalAlarm : Option String
  RelatedTable : Option String
  RelatedID : Option String
deriving DecidableEq, Repr

/-- `str(payload.get("AlarmType", "")).strip()` as computed in both
src/App/ws.py and src/App/services.py. -/
def alarmTypeStr (p : Payload) : String :=
  pyStrip (pyStrD p.AlarmType "")

/-- A Python value put into the outbound record's dict: None, a string, or
a `datetime` object. -/
inductive PyVal where
  | vNone : PyVal
  | vStr : String → PyVal
  | vDT : PyDateTime → PyVal
deriving DecidableEq, Repr

/-- The outbound record handed to `SOAP_CLIENT.Create`. The `Arguments`
field is `json.dumps` of the raw Longitude/Latitude pair, modelled as that
pair. -/
structure OutRecord where
  System_No : Option String
  Date_x0026_Time : PyVal
  Latitude : Option String
  Longitude : Option String
  Velocity : Option String
  Angle : Option String
  Altitude : Option String
  Acc : Bool
  Digit_Status : Option String
  Temperature : Option String
  Mileage : Option String
  Alarm_Type : Option Int
  Is_Original_Alarm : Bool
  Arguments_Longitude : Option String
  Arguments_Latitude : Option String
  Vehicle_No : Option String
  Current_Location : Option String
  Geo_fence_Name : Option String
  Alarm_Name : Option String
deriving DecidableEq, Repr

/-- The remote interactions one `push_to_soap` call may perform. -/
structure PushOracles where
  trackerResp : Option (FetchEnv TrackerData)
  alarmTypesResp : Option (FetchEnv (List AlarmTypeEntry))
  zonesResp : Option (FetchEnv (List Zone))
  routesResp : Option (FetchEnv (List Route))
  geocodeResp : Except Unit (Option String)

/-- Which related-entity lookup `push_to_soap` schedules (src/App/services.py
lines 76-84): `get_route_name` when the alarm type is "17", the stripped
related table is "Route" and the related id is truthy; otherwise
`get_geofence_name` when the related table is "SafeZone" and the related id
is truthy; otherwise none (`asyncio.sleep(0, result=None)`). -/
inductive RelatedTask where
  | routeLookup (rid : Option String)
  | geofenceLookup (zid : Option String)
  | noLookup
deriving DecidableEq, Repr

def relatedTaskOf (alarm_type related_table : String) (related_id : Option String) :
    RelatedTask :=
  if alarm_type == "17" && related_table == "Route" && pyTruthy related_id then
    .routeLookup related_id
  else if related_table == "SafeZone" && pyTruthy related_id then
    .geofenceLookup related_id
  else .noLookup

/-- Observable outcome of one `push_to_soap` call: returned early at the
allow-list guard; an exception escaped `asyncio.gather` (so the record was
never assembled or dispatched); or the SOAP `Create` dispatch was invoked
with the assembled record (whether that blocking call then succeeds or
fails is logged and swallowed, hence not distinguished). -/
inductive PushOutcome where
  | filtered
  | raised (e : PyErr)
  | dispatched (out : OutRecord)
deriving DecidableEq, Repr

/-- Effect trace of one `push_to_soap` call. -/
structure PushTrace where
  outcome : PushOutcome
  vehicleRefreshes : Nat
  alarmTypeRefreshes : Nat
  zoneRefreshes : Nat
  routeRefreshes : Nat
  geocodeAttempted : Bool
  related : RelatedTask
  finalState : St
deriving DecidableEq, Repr

/-- src/App/services.py `push_to_soap`. The `asyncio.gather` of the four
enrichment tasks is modelled sequentially — the tasks touch disjoint parts
of the shared state, so every interleaving of their single-threaded await
slices yields these results; an exception raised by any task propagates
out of `gather` and `push_to_soap` (`.raised`), where the listener's
catch-all logs it and drops the event, so no dispatch happens. -/
def push_to_soap (st : St) (orc : PushOracles) (allowed : List String) (p : Payload) :
    PushTrace :=
  let alarm_type := alarmTypeStr p
  if ¬ (allowed.contains alarm_type) then
    { outcome := .filtered, vehicleRefreshes := 0, alarmTypeRefreshes := 0
      zoneRefreshes := 0, routeRefreshes := 0, geocodeAttempted := false
      related := .noLookup, finalState := st }
  else
    let doGeocode := pyTruthy p.Latitude && pyTruthy p.Longitude
    let vres := get_vehicle_by_system_no st orc.trackerResp p.SystemNo
    let st1 := vres.2.1
    let ares := get_alarm_type_by_id st1 orc.alarmTypesResp alarm_type
    let st2 := ares.2.1
    let related_table := pyStrip (pyStrD p.RelatedTable "")
    let rel := relatedTaskOf alarm_type related_table p.RelatedID
    let rres : Except PyErr (Option String) × St × Nat :=
      match rel with
      | .routeLookup rid => get_route_name st2 orc.routesResp rid
      | .geofenceLookup zid => get_geofence_name st2 orc.zonesResp zid
      | .noLookup => (.ok none, st2, 0)
    let st3 := rres.2.1
    let location := if doGeocode then reverse_geocode orc.geocodeResp else none
    let outcome : PushOutcome :=
      match vres.1 with
      | .error e => .raised e
      | .ok vehicle =>
        match ares.1 with
        | .error e => .raised e
        | .ok alarm_name =>
          match rres.1 with
          | .error e => .raised e
          | .ok geofence_name =>
            .dispatched {
              System_No := p.SystemNo
              Date_x0026_Time := match p.DateTime with | none => .vNone | some s => .vStr s
              Latitude := to_decimal p.Latitude
              Longitude := to_decimal p.Longitude
              Velocity := to_decimal p.Velocity
              Angle := to_decimal p.Angle
              Altitude := to_decimal p.Altitude
              Acc := to_bool p.Acc
              Digit_Status := p.DigitStatus
              Temperature := to_decimal p.Temperature
              Mileage := to_decimal p.Mileage
              Alarm_Type := to_int (some alarm_type)
              Is_Original_Alarm := to_bool p.IsOriginalAlarm
              Arguments_Longitude := p.Longitude
              Arguments_Latitude := p.Latitude
              Vehicle_No := vehicle.bind Vehicle.Name
              Current_Location := location
              Geo_fence_Name := geofence_name
              Alarm_Name := alarm_name }
    { outcome := outcome
      vehicleRefreshes := vres.2.2
      alarmTypeRefreshes := ares.2.2
      zoneRefreshes := match rel with | .geofenceLookup _ => rres.2.2 | _ => 0
      routeRefreshes := match rel with | .routeLookup _ => rres.2.2 | _ => 0
      geocodeAttempted := doGeocode
      related := rel
      finalState := st3 }

/-- What one framed segment leads to in src/App/ws.py's receive loop:
a logged-and-skipped parse failure, a silent drop at the allow-list filter,
or a `push_to_soap` call. -/
inductive WsAction where
  | parseErrorLogged
  | droppedByFilter
  | pushed (t : PushTrace)
deriving DecidableEq, Repr

/-- The body of the receive loop for one non-blank framed segment
(src/App/ws.py lines 48-55): parse the JSON (`parsed = none` models a
`json.loads` failure), read and strip AlarmType, and only when it is in the
allow-list call `push_to_soap`; otherwise fall through silently. The
enclosing try/except also catches an exception raised out of
`push_to_soap`, so a `.raised` outcome is logged and the event dropped. -/
def wsHandleSegment (st : St) (orc : PushOracles) (allowed : List String)
    (parsed : Option Payload) : WsAction × St :=
  match parsed with
  | none => (.parseErrorLogged, st)
  | some data =>
    let alarm_type := alarmTypeStr data
    if allowed.contains alarm_type then
      let t := push_to_soap st orc allowed data
      (.pushed t, t.finalState)
    else
      (.droppedByFilter, st)

/-! ## Cache refresh interleavings (shared-state transition system)

The four reference datasets live in the shared `state.STATE` and are only
ever read or replaced wholesale by the src/App/platform.py fetchers. Under
asyncio's single-threaded cooperative scheduling each such replacement is
one uninterrupted assignment, so any concurrent execution of refreshes is
an interleaving, i.e. a sequence, of these operations.
-/

/-- One shared-cache refresh call, carrying the response the platform gives
it (`none` = body not decodable as JSON). -/
inductive CacheOp where
  | trackers (resp : Option (FetchEnv TrackerData))
  | alarmKinds (resp : Option (FetchEnv (List AlarmTypeEntry)))
  | zones (resp : Option (FetchEnv (List Zone)))
  | routeKinds (resp : Option (FetchEnv (List Route)))

/-- Apply one refresh call to the shared state. A raised exception leaves
the state untouched: every raise in src/App/platform.py happens before the
assignment. -/
def applyCacheOp (st : St) : CacheOp → St
  | .trackers resp =>
    match get_my_tracker st resp with
    | .ok st' => st'
    | .error _ => st
  | .alarmKinds resp =>
    match get_alarm_types st resp with
    | .ok st' => st'
    | .error _ => st
  | .zones resp =>
    match get_geofences st resp with
    | .ok st' => st'
    | .error _ => st
  | .routeKinds resp =>
    match get_routes st resp with
    | .ok st' => st'
    | .error _ => st

/-- Run a sequence (interleaving) of refresh calls. -/
def runCacheOps (st : St) : List CacheOp → St
  | [] => st
  | op :: ops => runCacheOps (applyCacheOp st op) ops

/-- The complete vehicle snapshot a successful trackers refresh installs. -/
def vehicleSnapshot : CacheOp → Option (List Vehicle)
  | .trackers (some env) =>
    if pyStr env.State != "0" then none else some ((env.Data.bind (·.Tracker)).getD [])
  | _ => none

/-- The complete alarm-type snapshot a successful refresh installs. -/
def alarmSnapshot : CacheOp → Option (List AlarmTypeEntry)
  | .alarmKinds (some env) =>
    if pyStr env.State != "0" then none else some (env.Data.getD [])
  | _ => none

/-- The complete geofence snapshot a successful refresh installs. -/
def zoneSnapshot : CacheOp → Option (List Zone)
  | .zones (some env) =>
    if pyStr env.State != "0" then none else some (env.Data.getD [])
  | _ => none

/-- The complete route snapshot a successful refresh installs. -/
def routeSnapshot : CacheOp → Option (List Route)
  | .routeKinds (some env) =>
    if pyStr env.State != "0" then none else some (env.Data.getD [])
  | _ => none

/-- The snapshot installed by the most recent successful refresh of one
kind within an operation sequence, if any refresh of that kind succeeded. -/
def lastSnapshot {α : Type} (f : CacheOp → Option α) : List CacheOp → Option α
  | [] => none
  | op :: ops => (lastSnapshot f ops).orElse (fun _ => f op)

/-! ## Helper projections and fixtures used to state the claims -/

/-- The Date_x0026_Time slot of a dispatched record, when one was
dispatched. -/
def dispatchedDateField : PushOutcome → Option PyVal
  | .dispatched out => some out.Date_x0026_Time
  | _ => none

/-- A representative inbound alarm event used for concrete evaluations. -/
def basePayload : Payload :=
  { AlarmType := some "3", SystemNo := some "8100000000", Latitude := some "9.0765"
    Longitude := some "7.3986", DateTime := some "2025-08-20 14:58:28"
    Velocity := some "42", Angle := some "180", Altitude := some "450"
    Acc := some "1", DigitStatus := some "0", Temperature := some "30"
    Mileage := some "1000.5", IsOriginalAlarm := some "true"
    RelatedTable := none, RelatedID := none }

/-- Platform responses that answer every refresh successfully with small
fixed snapshots, and a geocoder that answers with an address. -/
def baseOracles : PushOracles :=
  { trackerResp := some ⟨some "0", some ⟨some [], some [⟨some "8100000000", some "KJA 12 XY"⟩]⟩⟩
    alarmTypesResp := some ⟨some "0", some [⟨some "3", some "SOS Alarm"⟩, ⟨some "17", some "Yaw Alarm"⟩]⟩
    zonesResp := some ⟨some "0", some [⟨some "z1", some "Zone One"⟩]⟩
    routesResp := some ⟨some "0", some [⟨some "r1", some "Route One"⟩]⟩
    geocodeResp := .ok (some "Abuja, Nigeria") }

/-- State fixture: a route and a geofence sharing the id "r1". -/
def routeAndZoneState : St :=
  { initState with routes := some [⟨some "r1", some "Route One"⟩]
                   geofences := some [⟨some "r1", some "Zone X"⟩] }

/-- Payload fixture: a route-deviation alarm referencing Route "r1". -/
def routeDeviationPayload : Payload :=
  { basePayload with AlarmType := some "17", RelatedTable := some "Route"
                     RelatedID := some "r1" }

instance {e a : Type} [DecidableEq e] [DecidableEq a] : DecidableEq (Except e a) := fun x y =>
  match x, y with
  | .ok u, .ok v => if h : u = v then isTrue (by rw [h]) else isFalse (by simp [h])
  | .error u, .error v => if h : u = v then isTrue (by rw [h]) else isFalse (by simp [h])
  | .ok _, .error _ => isFalse (by simp)
  | .error _, .ok _ => isFalse (by simp)

/-! ## Theorems settling the claims -/

theorem drainBuffer_none {buf : List Char} (h : splitFirstHash buf = none) :
    drainBuffer buf = ([], buf) := by
  conv_lhs => rw [drainBuffer]
  split
  · rfl
  · rename_i chunk rest heq
    rw [heq] at h
    cases h

theorem drainBuffer_some {buf chunk rest : List Char}
    (h : splitFirstHash buf = some (chunk, rest)) :
    drainBuffer buf =
      (if pyStripEmpty chunk then (drainBuffer rest).1
       else chunk :: (drainBuffer rest).1, (drainBuffer rest).2) := by
  conv_lhs => rw [drainBuffer]
  split
  · rename_i heq
    rw [heq] at h
    cases h
  · rename_i c r heq
    rw [heq] at h
    obtain ⟨rfl, rfl⟩ : c = chunk ∧ r = rest := by simpa using h
    rfl

theorem splitFirstHash_append_some {a c r : List Char} (b : List Char)
    (h : splitFirstHash a = some (c, r)) :
    splitFirstHash (a ++ b) = some (c, r ++ b) := by
  induction a generalizing c with
  | nil => simp [splitFirstHash] at h
  | cons x xs ih =>
    rw [splitFirstHash] at h
    rw [List.cons_append, splitFirstHash]
    by_cases hx : x = '#'
    · rw [if_pos hx] at h ⊢
      obtain ⟨rfl, rfl⟩ : [] = c ∧ xs = r := by simpa using h
      rfl
    · rw [if_neg hx] at h ⊢
      cases hsp : splitFirstHash xs with
      | none => rw [hsp] at h; simp at h
      | some p =>
        obtain ⟨a', b'⟩ := p
        rw [hsp] at h
        obtain ⟨rfl, rfl⟩ : x :: a' = c ∧ b' = r := by simpa using h
        rw [ih hsp]

theorem splitFirstHash_drain_rest (buf : List Char) :
    splitFirstHash (drainBuffer buf).2 = none := by
  induction buf using drainBuffer.induct with
  | case1 buf h => rw [drainBuffer_none h]; exact h
  | case2 buf chunk rest h ih => rw [drainBuffer_some h]; exact ih

theorem drainBuffer_append (a b : List Char) :
    drainBuffer (a ++ b) =
      ((drainBuffer a).1 ++ (drainBuffer ((drainBuffer a).2 ++ b)).1,
       (drainBuffer ((drainBuffer a).2 ++ b)).2) := by
  induction a using drainBuffer.induct with
  | case1 a h => rw [drainBuffer_none h]; simp
  | case2 a chunk rest h ih =>
    rw [drainBuffer_some h, drainBuffer_some (splitFirstHash_append_some b h), ih]
    by_cases hst : pyStripEmpty chunk <;> simp [hst]

theorem processStream_join (ms : List (List Char)) :
    ∀ buffer : List Char, splitFirstHash buffer = none →
      processStream buffer ms = drainBuffer (buffer ++ ms.flatten) := by
  induction ms with
  | nil =>
    intro buffer h
    simp [processStream, drainBuffer_none h]
  | cons m ms ih =>
    intro buffer h
    have hrest := splitFirstHash_drain_rest (buffer ++ m)
    simp only [processStream, ih _ hrest, List.flatten_cons]
    rw [show buffer ++ (m ++ ms.flatten) = (buffer ++ m) ++ ms.flatten by simp,
      drainBuffer_append (buffer ++ m) ms.flatten]

/-- C1: framing is chunk-boundary independent. Feeding any sequence of
streamed text chunks through the listener's buffer loop (append each chunk,
repeatedly split off the text before the next '#' delimiter, skip blank
segments, keep the remainder) produces exactly the same sequence of
non-blank application messages as concatenating all the chunks first and
splitting the concatenation on '#'. -/
theorem C1_framing_chunk_boundary_independent (chunks : List (List Char)) :
    (processStream [] chunks).1 = (drainBuffer chunks.flatten).1 := by
  rw [processStream_join chunks [] rfl]
  simp


/-- C9: `sign_in` fails exactly when the platform body is not decodable as
JSON or its State field does not render as the success sentinel "0"; on
success it stores the returned Token and Data (the session identity) into
the session state; on failure it leaves the whole state — in particular a
previously stored token and session identity — unchanged. -/
theorem C9_sign_in_contract (st : St) (resp : Option SignInResp) :
    ((∃ e, (sign_in st resp).1 = .error e) ↔
      resp = none ∨ ∃ d, resp = some d ∧ pyStr d.State ≠ "0") ∧
    (∀ d, resp = some d → pyStr d.State = "0" →
      (sign_in st resp).1 = .ok () ∧
      (sign_in st resp).2 = { st with token := d.Token, user_config := d.Data }) ∧
    (∀ e, (sign_in st resp).1 = .error e → (sign_in st resp).2 = st) := by
  cases resp with
  | none => simp [sign_in]
  | some d =>
    by_cases h : pyStr d.State = "0"
    · simp [sign_in, h]
    · simp [sign_in, h]

/-- Witness for C9: a success response stores the returned token and
session identity; a non-decodable response leaves the state unchanged. -/
theorem C9_sign_in_contract_witness :
    (sign_in initState (some ⟨some "0", some "tok-1", some "cfg"⟩)).2
      = { initState with token := some "tok-1", user_config := some "cfg" } ∧
    (sign_in { initState with token := some "old" } none).2
      = { initState with token := some "old" } := by
  refine ⟨?_, ?_⟩
  · exact ((C9_sign_in_contract initState (some ⟨some "0", some "tok-1", some "cfg"⟩)).2.1
      ⟨some "0", some "tok-1", some "cfg"⟩ rfl rfl).2
  · exact (C9_sign_in_contract { initState with token := some "old" } none).2.2
      (.runtimeError "Non-JSON response") rfl

/-- C3: a successfully parsed record whose stripped alarm-type field is not
in the configured allow-list is discarded silently — the listener's receive
loop drops it without calling `push_to_soap`, and the guard at the top of
`push_to_soap` itself would return with no enrichment lookup, no cache
refresh, no geocoding call, no related-entity task and no dispatch, leaving
the state untouched. -/
theorem C3_disallowed_alarm_discarded (st : St) (orc : PushOracles)
    (allowed : List String) (p : Payload)
    (h : allowed.contains (alarmTypeStr p) = false) :
    wsHandleSegment st orc allowed (some p) = (.droppedByFilter, st) ∧
    push_to_soap st orc allowed p =
      { outcome := .filtered, vehicleRefreshes := 0, alarmTypeRefreshes := 0
        zoneRefreshes := 0, routeRefreshes := 0, geocodeAttempted := false
        related := .noLookup, finalState := st } := by
  have h' : alarmTypeStr p ∉ allowed := by simpa using h
  constructor
  · simp [wsHandleSegment, h, h']
  · simp [push_to_soap, h, h']

/-- Witness for C3: AlarmType "99" against the default allow-list. -/
theorem C3_disallowed_alarm_discarded_witness :
    (["17", "3", "8"].contains (alarmTypeStr { basePayload with AlarmType := some "99" })
      = false) ∧
    wsHandleSegment initState baseOracles ["17", "3", "8"]
      (some { basePayload with AlarmType := some "99" }) = (.droppedByFilter, initState) := by
  exact ⟨by decide,
    (C3_disallowed_alarm_discarded initState baseOracles ["17", "3", "8"]
      { basePayload with AlarmType := some "99" } (by decide)).1⟩

/-- C4: evaluation at the failing input. In the start state no refresh has
ever run, so the "empty mapping" start of the geofence cache is in fact a
missing `STATE.geofences` attribute: the first lookup raises AttributeError
after zero refresh calls — even though the supplied platform response would
have answered a refresh successfully with a snapshot containing the queried
zone — instead of triggering exactly one refresh and returning the value.
Once the attribute exists (second conjunct: a fetched-empty snapshot), the
lookup behaves exactly as the claim states: one refresh, then the value. -/
theorem C4_cache_lookup_failing_eval :
    get_geofence_name initState (some ⟨some "0", some [⟨some "z1", some "Zone One"⟩]⟩)
        (some "z1")
      = (.error .attributeError, initState, 0) ∧
    get_geofence_name { initState with geofences := some [] }
        (some ⟨some "0", some [⟨some "z1", some "Zone One"⟩]⟩) (some "z1")
      = (.ok (some "Zone One"),
         { initState with geofences := some [⟨some "z1", some "Zone One"⟩] }, 1) := by
  exact ⟨rfl, by decide⟩

/-- C5 is false as stated: an id that resolves from the already-cached
mapping with display text "Engine Start Alarm" is returned unsubstituted —
the cached path of `get_alarm_type_by_id` applies only the "Yaw Alarm"
substitution, not the "Engine Start Alarm" → "Movement Alarm" one. -/
theorem C5_counterexample :
    (get_alarm_type_by_id
        { initState with alarm_types := [⟨some "8", some "Engine Start Alarm"⟩] }
        (some ⟨some "0", some [⟨some "8", some "Engine Start Alarm"⟩]⟩) "8").1
      = .ok (some "Engine Start Alarm") ∧
    (get_alarm_type_by_id
        { initState with alarm_types := [⟨some "8", some "Engine Start Alarm"⟩] }
        (some ⟨some "0", some [⟨some "8", some "Engine Start Alarm"⟩]⟩) "8").1
      ≠ .ok (some "Movement Alarm") := by
  exact ⟨rfl, by decide⟩

/-- C5 amended: the "Yaw Alarm" → "Deviation Alarm" substitution is applied
on both resolution paths of the alarm-type lookup, but the "Engine Start
Alarm" → "Movement Alarm" substitution only on the path that resolves after
a refresh; a hit in the already-cached mapping returns every other display
text — "Engine Start Alarm" included — unsubstituted. -/
theorem C5_amended (st : St) (resp : Option (FetchEnv (List AlarmTypeEntry)))
    (tid : String) :
    (∀ a, findAlarm st.alarm_types tid = some a →
      (get_alarm_type_by_id st resp tid).1 =
        .ok (some (if pyStrD a.Content "" == "Yaw Alarm" then "Deviation Alarm"
                   else pyStrD a.Content ""))) ∧
    (∀ st' a, findAlarm st.alarm_types tid = none → get_alarm_types st resp = .ok st' →
      findAlarm st'.alarm_types tid = some a →
      (get_alarm_type_by_id st resp tid).1 =
        .ok (some (if pyStrD a.Content "" == "Yaw Alarm" then "Deviation Alarm"
                   else if pyStrD a.Content "" == "Engine Start Alarm" then "Movement Alarm"
                   else pyStrD a.Content ""))) := by
  constructor
  · intro a ha
    simp [get_alarm_type_by_id, ha]
  · intro st' a hmiss hok hhit
    simp [get_alarm_type_by_id, hmiss, hok, hhit]

/-- Witness for C5 amended: a cached "Yaw Alarm" resolves to "Deviation
Alarm"; an "Engine Start Alarm" that resolves only after the refresh is
substituted with "Movement Alarm". -/
theorem C5_amended_witness :
    (get_alarm_type_by_id { initState with alarm_types := [⟨some "17", some "Yaw Alarm"⟩] }
        none "17").1 = .ok (some "Deviation Alarm") ∧
    (get_alarm_type_by_id initState
        (some ⟨some "0", some [⟨some "8", some "Engine Start Alarm"⟩]⟩) "8").1
      = .ok (some "Movement Alarm") := by
  constructor
  · exact (C5_amended { initState with alarm_types := [⟨some "17", some "Yaw Alarm"⟩] }
      none "17").1 ⟨some "17", some "Yaw Alarm"⟩ rfl
  · exact (C5_amended initState
      (some ⟨some "0", some [⟨some "8", some "Engine Start Alarm"⟩]⟩) "8").2
      { initState with alarm_types := [⟨some "8", some "Engine Start Alarm"⟩] }
      ⟨some "8", some "Engine Start Alarm"⟩ rfl rfl rfl

/-- C6: the timestamp helper parses the space-separated and the
'T'-separated form to the same instant and turns empty or malformed input
into None instead of raising; but src/App/services.py `push_to_soap` never
applies it — the dispatched record's Date_x0026_Time slot carries the raw
inbound DateTime string, not the parsed structured timestamp. -/
theorem C6_timestamp_eval :
    to_xsd_datetime "2025-08-20 14:58:28" = some ⟨2025, 8, 20, 14, 58, 28, 0⟩ ∧
    to_xsd_datetime "2025-08-20T14:58:28" = some ⟨2025, 8, 20, 14, 58, 28, 0⟩ ∧
    to_xsd_datetime "" = none ∧
    to_xsd_datetime "not-a-date" = none ∧
    to_xsd_datetime "2025-13-40 99:99:99" = none ∧
    dispatchedDateField (push_to_soap initState baseOracles ["17", "3", "8"] basePayload).outcome
      = some (.vStr "2025-08-20 14:58:28") ∧
    PyVal.vStr "2025-08-20 14:58:28" ≠ PyVal.vDT ⟨2025, 8, 20, 14, 58, 28, 0⟩ := by
  refine ⟨rfl, rfl, rfl, rfl, rfl, rfl, by decide⟩

theorem applyCacheOp_geofences (st : St) (op : CacheOp) :
    (applyCacheOp st op).geofences = ((zoneSnapshot op).map some).getD st.geofences := by
  cases op with
  | trackers resp =>
    cases resp with
    | none => rfl
    | some env =>
      simp only [applyCacheOp, get_my_tracker, zoneSnapshot]
      cases hb : pyStr env.State != "0" <;> simp [hb]
  | alarmKinds resp =>
    cases resp with
    | none => rfl
    | some env =>
      simp only [applyCacheOp, get_alarm_types, alarmSnapshot, zoneSnapshot]
      cases hb : pyStr env.State != "0" <;> simp [hb]
  | zones resp =>
    cases resp with
    | none => rfl
    | some env =>
      simp only [applyCacheOp, get_geofences, zoneSnapshot]
      cases hb : pyStr env.State != "0" <;> simp [hb]
  | routeKinds resp =>
    cases resp with
    | none => rfl
    | some env =>
      simp only [applyCacheOp, get_routes, zoneSnapshot]
      cases hb : pyStr env.State != "0" <;> simp [hb]

theorem applyCacheOp_routes (st : St) (op : CacheOp) :
    (applyCacheOp st op).routes = ((routeSnapshot op).map some).getD st.routes := by
  cases op with
  | trackers resp =>
    cases resp with
    | none => rfl
    | some env =>
      simp only [applyCacheOp, get_my_tracker, routeSnapshot]
      cases hb : pyStr env.State != "0" <;> simp [hb]
  | alarmKinds resp =>
    cases resp with
    | none => rfl
    | some env =>
      simp only [applyCacheOp, get_alarm_types, routeSnapshot]
      cases hb : pyStr env.State != "0" <;> simp [hb]
  | zones resp =>
    cases resp with
    | none => rfl
    | some env =>
      simp only [applyCacheOp, get_geofences, routeSnapshot]
      cases hb : pyStr env.State != "0" <;> simp [hb]
  | routeKinds resp =>
    cases resp with
    | none => rfl
    | some env =>
      simp only [applyCacheOp, get_routes, routeSnapshot]
      cases hb : pyStr env.State != "0" <;> simp [hb]

theorem applyCacheOp_vehicle_data (st : St) (op : CacheOp) :
    (applyCacheOp st op).vehicle_data = (vehicleSnapshot op).getD st.vehicle_data := by
  cases op with
  | trackers resp =>
    cases resp with
    | none => rfl
    | some env =>
      simp only [applyCacheOp, get_my_tracker, vehicleSnapshot]
      cases hb : pyStr env.State != "0" <;> simp [hb]
  | alarmKinds resp =>
    cases resp with
    | none => rfl
    | some env =>
      simp only [applyCacheOp, get_alarm_types, vehicleSnapshot]
      cases hb : pyStr env.State != "0" <;> simp [hb]
  | zones resp =>
    cases resp with
    | none => rfl
    | some env =>
      simp only [applyCacheOp, get_geofences, vehicleSnapshot]
      cases hb : pyStr env.State != "0" <;> simp [hb]
  | routeKinds resp =>
    cases resp with
    | none => rfl
    | some env =>
      simp only [applyCacheOp, get_routes, vehicleSnapshot]
      cases hb : pyStr env.State != "0" <;> simp [hb]

theorem applyCacheOp_alarm_types (st : St) (op : CacheOp) :
    (applyCacheOp st op).alarm_types = (alarmSnapshot op).getD st.alarm_types := by
  cases op with
  | trackers resp =>
    cases resp with
    | none => rfl
    | some env =>
      simp only [applyCacheOp, get_my_tracker, alarmSnapshot]
      cases hb : pyStr env.State != "0" <;> simp [hb]
  | alarmKinds resp =>
    cases resp with
    | none => rfl
    | some env =>
      simp only [applyCacheOp, get_alarm_types, alarmSnapshot]
      cases hb : pyStr env.State != "0" <;> simp [hb]
  | zones resp =>
    cases resp with
    | none => rfl
    | some env =>
      simp only [applyCacheOp, get_geofences, alarmSnapshot]
      cases hb : pyStr env.State != "0" <;> simp [hb]
  | routeKinds resp =>
    cases resp with
    | none => rfl
    | some env =>
      simp only [applyCacheOp, get_routes, alarmSnapshot]
      cases hb : pyStr env.State != "0" <;> simp [hb]

theorem runCacheOps_project {α : Type} (proj : St → α) (snap : CacheOp → Option α)
    (hstep : ∀ st op, proj (applyCacheOp st op) = (snap op).getD (proj st)) :
    ∀ (ops : List CacheOp) (st : St),
      proj (runCacheOps st ops) = (lastSnapshot snap ops).getD (proj st) := by
  intro ops
  induction ops with
  | nil => intro st; rfl
  | cons op ops ih =>
    intro st
    rw [runCacheOps, ih, hstep]
    cases hls : lastSnapshot snap ops with
    | some v => simp [lastSnapshot, hls, Option.orElse]
    | none => simp [lastSnapshot, hls, Option.orElse]

theorem lastSnapshot_map {α β : Type} (f : CacheOp → Option α) (g : α → β)
    (ops : List CacheOp) :
    lastSnapshot (fun op => (f op).map g) ops = (lastSnapshot f ops).map g := by
  induction ops with
  | nil => rfl
  | cons op ops ih =>
    simp only [lastSnapshot, ih]
    cases lastSnapshot f ops <;> simp [Option.orElse]

/-- C8: cache snapshot invariant. Starting from the initial state, after any
interleaving of refresh calls — each answered arbitrarily (undecodable body,
non-success status, or a successful snapshot) — every reference-dataset
mapping equals exactly the complete snapshot installed by its most recent
successful refresh, or its never-fetched start value when no refresh of its
kind succeeded. In particular no reachable state mixes entries of two
different fetches, and a reader between any two operations observes either
the old complete snapshot or the new complete snapshot. -/
theorem C8_cache_snapshot_invariant (ops : List CacheOp) :
    (runCacheOps initState ops).geofences = lastSnapshot zoneSnapshot ops ∧
    (runCacheOps initState ops).routes = lastSnapshot routeSnapshot ops ∧
    (runCacheOps initState ops).vehicle_data = (lastSnapshot vehicleSnapshot ops).getD [] ∧
    (runCacheOps initState ops).alarm_types = (lastSnapshot alarmSnapshot ops).getD [] := by
  refine ⟨?_, ?_, ?_, ?_⟩
  · rw [runCacheOps_project (fun s => s.geofences) (fun op => (zoneSnapshot op).map some)
      applyCacheOp_geofences ops initState, lastSnapshot_map]
    cases lastSnapshot zoneSnapshot ops <;> rfl
  · rw [runCacheOps_project (fun s => s.routes) (fun op => (routeSnapshot op).map some)
      applyCacheOp_routes ops initState, lastSnapshot_map]
    cases lastSnapshot routeSnapshot ops <;> rfl
  · rw [runCacheOps_project (fun s => s.vehicle_data) vehicleSnapshot
      applyCacheOp_vehicle_data ops initState]
    cases lastSnapshot vehicleSnapshot ops <;> rfl
  · rw [runCacheOps_project (fun s => s.alarm_types) alarmSnapshot
      applyCacheOp_alarm_types ops initState]
    cases lastSnapshot alarmSnapshot ops <;> rfl

theorem get_vehicle_geofences_indep (st : St) (g : Option (List Zone))
    (resp : Option (FetchEnv TrackerData)) (q : Option String) :
    (get_vehicle_by_system_no { st with geofences := g } resp q).1
      = (get_vehicle_by_system_no st resp q).1 ∧
    (get_vehicle_by_system_no { st with geofences := g } resp q).2.1
      = { (get_vehicle_by_system_no st resp q).2.1 with geofences := g } ∧
    (get_vehicle_by_system_no { st with geofences := g } resp q).2.2
      = (get_vehicle_by_system_no st resp q).2.2 := by
  cases hf : findVehicle st.vehicle_data (pyStr q) with
  | some v => simp [get_vehicle_by_system_no, hf]
  | none =>
    cases resp with
    | none => simp [get_vehicle_by_system_no, get_my_tracker, hf]
    | some env =>
      cases hb : pyStr env.State != "0" <;>
        simp [get_vehicle_by_system_no, get_my_tracker, hf, hb]

theorem get_alarm_geofences_indep (st : St) (g : Option (List Zone))
    (resp : Option (FetchEnv (List AlarmTypeEntry))) (tid : String) :
    (get_alarm_type_by_id { st with geofences := g } resp tid).1
      = (get_alarm_type_by_id st resp tid).1 ∧
    (get_alarm_type_by_id { st with geofences := g } resp tid).2.1
      = { (get_alarm_type_by_id st resp tid).2.1 with geofences := g } ∧
    (get_alarm_type_by_id { st with geofences := g } resp tid).2.2
      = (get_alarm_type_by_id st resp tid).2.2 := by
  cases hf : findAlarm st.alarm_types tid with
  | some a => simp [get_alarm_type_by_id, hf]
  | none =>
    cases resp with
    | none => simp [get_alarm_type_by_id, get_alarm_types, hf]
    | some env =>
      cases hb : pyStr env.State != "0" with
      | false =>
        cases hf2 : findAlarm (env.Data.getD []) tid <;>
          simp [get_alarm_type_by_id, get_alarm_types, hf, hb, hf2]
      | true => simp [get_alarm_type_by_id, get_alarm_types, hf, hb]

theorem get_route_name_geofences_indep (st : St) (g : Option (List Zone))
    (resp : Option (FetchEnv (List Route))) (rid : Option String) :
    (get_route_name { st with geofences := g } resp rid).1
      = (get_route_name st resp rid).1 := by
  cases hr : st.routes with
  | none => simp [get_route_name, hr]
  | some rs =>
    cases hf : findRoute rs (pyLower (pyStr rid)) with
    | some r => simp [get_route_name, hr, hf]
    | none =>
      cases resp with
      | none => simp [get_route_name, get_routes, hr, hf]
      | some env =>
        cases hb : pyStr env.State != "0" with
        | false =>
          cases hf2 : findRoute (env.Data.getD []) (pyLower (pyStr rid)) <;>
            simp [get_route_name, get_routes, hr, hf, hb, hf2]
        | true => simp [get_route_name, get_routes, hr, hf, hb]

/-- C7: related-entity resolution precedence for a filtered alarm event.
When the alarm type is "17", the stripped related table is "Route" and the
related id is truthy, the related-entity task is the route lookup, the
geofence dataset is never refreshed, and the whole observable outcome is
unchanged under replacing the geofence dataset by anything — so the name is
resolved via the route dataset even if a geofence with the same id exists.
Otherwise, a truthy related id with related table "SafeZone" selects the
geofence lookup; in every remaining case no related-entity resolution and
no related refresh happens. -/
theorem C7_related_precedence (st : St) (orc : PushOracles) (allowed : List String)
    (p : Payload)
    (hallow : allowed.contains (alarmTypeStr p) = true) :
    (alarmTypeStr p = "17" → pyStrip (pyStrD p.RelatedTable "") = "Route" →
        pyTruthy p.RelatedID = true →
      (push_to_soap st orc allowed p).related = .routeLookup p.RelatedID ∧
      (push_to_soap st orc allowed p).zoneRefreshes = 0 ∧
      ∀ g, (push_to_soap { st with geofences := g } orc allowed p).outcome
        = (push_to_soap st orc allowed p).outcome) ∧
    (¬ (alarmTypeStr p = "17" ∧ pyStrip (pyStrD p.RelatedTable "") = "Route"
          ∧ pyTruthy p.RelatedID = true) →
        pyStrip (pyStrD p.RelatedTable "") = "SafeZone" → pyTruthy p.RelatedID = true →
      (push_to_soap st orc allowed p).related = .geofenceLookup p.RelatedID) ∧
    (¬ (alarmTypeStr p = "17" ∧ pyStrip (pyStrD p.RelatedTable "") = "Route"
          ∧ pyTruthy p.RelatedID = true) →
      ¬ (pyStrip (pyStrD p.RelatedTable "") = "SafeZone" ∧ pyTruthy p.RelatedID = true) →
      (push_to_soap st orc allowed p).related = .noLookup ∧
      (push_to_soap st orc allowed p).zoneRefreshes = 0 ∧
      (push_to_soap st orc allowed p).routeRefreshes = 0) := by
  have h' : alarmTypeStr p ∈ allowed := by simpa using hallow
  refine ⟨?_, ?_, ?_⟩
  · intro h17 hrt htr
    have hrel : relatedTaskOf (alarmTypeStr p) (pyStrip (pyStrD p.RelatedTable ""))
        p.RelatedID = .routeLookup p.RelatedID := by
      simp [relatedTaskOf, h17, hrt, htr]
    refine ⟨?_, ?_, ?_⟩
    · simp [push_to_soap, h', hrel]
    · simp [push_to_soap, h', hrel]
    · intro g
      obtain ⟨h1, h2, h3⟩ := get_vehicle_geofences_indep st g orc.trackerResp p.SystemNo
      obtain ⟨k1, k2, k3⟩ := get_alarm_geofences_indep
        (get_vehicle_by_system_no st orc.trackerResp p.SystemNo).2.1 g
        orc.alarmTypesResp (alarmTypeStr p)
      have l1 := get_route_name_geofences_indep
        (get_alarm_type_by_id (get_vehicle_by_system_no st orc.trackerResp p.SystemNo).2.1
          orc.alarmTypesResp (alarmTypeStr p)).2.1 g orc.routesResp p.RelatedID
      simp only [push_to_soap, hallow, not_true_eq_false, if_false, hrel, h1, h2, h3,
        k1, k2, k3, l1]
  · intro hnot hsz htr
    have hrel : relatedTaskOf (alarmTypeStr p) (pyStrip (pyStrD p.RelatedTable ""))
        p.RelatedID = .geofenceLookup p.RelatedID := by
      simp only [relatedTaskOf]
      rw [if_neg, if_pos]
      · simp [hsz, htr]
      · intro hc
        simp only [Bool.and_eq_true, beq_iff_eq] at hc
        exact hnot ⟨hc.1.1, hc.1.2, hc.2⟩
    simp [push_to_soap, h', hrel]
  · intro hnot hnot2
    have hrel : relatedTaskOf (alarmTypeStr p) (pyStrip (pyStrD p.RelatedTable ""))
        p.RelatedID = .noLookup := by
      simp only [relatedTaskOf]
      rw [if_neg, if_neg]
      · intro hc
        simp only [Bool.and_eq_true, beq_iff_eq] at hc
        exact hnot2 ⟨hc.1, hc.2⟩
      · intro hc
        simp only [Bool.and_eq_true, beq_iff_eq] at hc
        exact hnot ⟨hc.1.1, hc.1.2, hc.2⟩
    simp [push_to_soap, h', hrel]

/-- Witness for C7: an AlarmType "17" event with RelatedTable "Route" and
RelatedID "r1" resolves the related-entity name through the route dataset —
the outcome is unchanged when the geofence dataset is replaced, although a
geofence with the very same id exists — and the dispatched record carries
the route's name. -/
theorem C7_related_precedence_witness :
    (push_to_soap routeAndZoneState baseOracles ["17", "3", "8"]
        routeDeviationPayload).related = .routeLookup (some "r1") ∧
    (push_to_soap routeAndZoneState baseOracles ["17", "3", "8"]
        routeDeviationPayload).zoneRefreshes = 0 ∧
    (push_to_soap { routeAndZoneState with geofences := some [] } baseOracles
        ["17", "3", "8"] routeDeviationPayload).outcome
      = (push_to_soap routeAndZoneState baseOracles ["17", "3", "8"]
          routeDeviationPayload).outcome ∧
    (match (push_to_soap routeAndZoneState baseOracles ["17", "3", "8"]
        routeDeviationPayload).outcome with
     | .dispatched out => out.Geo_fence_Name
     | _ => none) = some "Route One" := by
  obtain ⟨ha, hb, hc⟩ := (C7_related_precedence routeAndZoneState baseOracles
    ["17", "3", "8"] routeDeviationPayload (by decide)).1 (by decide) (by decide) (by decide)
  exact ⟨ha, hb, hc (some []), rfl⟩

theorem get_vehicle_ok (st : St) (env : FetchEnv TrackerData) (q : Option String)
    (h : pyStr env.State = "0") :
    ∃ v, (get_vehicle_by_system_no st (some env) q).1 = .ok v := by
  cases hf : findVehicle st.vehicle_data (pyStr q) with
  | some v => exact ⟨some v, by simp [get_vehicle_by_system_no, hf]⟩
  | none =>
    exact ⟨findVehicle ((env.Data.bind (·.Tracker)).getD []) (pyStr q), by
      simp [get_vehicle_by_system_no, hf, get_my_tracker, h]⟩

theorem get_alarm_ok (st : St) (env : FetchEnv (List AlarmTypeEntry)) (tid : String)
    (h : pyStr env.State = "0") :
    ∃ a, (get_alarm_type_by_id st (some env) tid).1 = .ok a := by
  cases hf : findAlarm st.alarm_types tid with
  | some a =>
    exact ⟨some (if pyStrD a.Content "" == "Yaw Alarm" then "Deviation Alarm"
      else pyStrD a.Content ""), by simp [get_alarm_type_by_id, hf]⟩
  | none =>
    cases hf2 : findAlarm (env.Data.getD []) tid with
    | some a =>
      exact ⟨some (if pyStrD a.Content "" == "Yaw Alarm" then "Deviation Alarm"
        else if pyStrD a.Content "" == "Engine Start Alarm" then "Movement Alarm"
        else pyStrD a.Content ""),
        by simp [get_alarm_type_by_id, hf, get_alarm_types, h, hf2]⟩
    | none =>
      exact ⟨none, by simp [get_alarm_type_by_id, hf, get_alarm_types, h, hf2]⟩

theorem get_geofence_ok (st : St) (zs : List Zone) (env : FetchEnv (List Zone))
    (zid : Option String) (hzs : st.geofences = some zs) (h : pyStr env.State = "0") :
    ∃ n, (get_geofence_name st (some env) zid).1 = .ok n := by
  cases hf : findZone zs (pyLower (pyStr zid)) with
  | some z => exact ⟨z.ZoneName, by simp [get_geofence_name, hzs, hf]⟩
  | none =>
    cases hf2 : findZone (env.Data.getD []) (pyLower (pyStr zid)) with
    | some z =>
      exact ⟨z.ZoneName, by simp [get_geofence_name, hzs, hf, get_geofences, h, hf2]⟩
    | none =>
      exact ⟨none, by simp [get_geofence_name, hzs, hf, get_geofences, h, hf2]⟩

theorem get_route_ok (st : St) (rs : List Route) (env : FetchEnv (List Route))
    (rid : Option String) (hrs : st.routes = some rs) (h : pyStr env.State = "0") :
    ∃ n, (get_route_name st (some env) rid).1 = .ok n := by
  cases hf : findRoute rs (pyLower (pyStr rid)) with
  | some r => exact ⟨r.RouteName, by simp [get_route_name, hrs, hf]⟩
  | none =>
    cases hf2 : findRoute (env.Data.getD []) (pyLower (pyStr rid)) with
    | some r =>
      exact ⟨r.RouteName, by simp [get_route_name, hrs, hf, get_routes, h, hf2]⟩
    | none =>
      exact ⟨none, by simp [get_route_name, hrs, hf, get_routes, h, hf2]⟩

theorem get_vehicle_preserves (st : St) (resp : Option (FetchEnv TrackerData))
    (q : Option String) :
    (get_vehicle_by_system_no st resp q).2.1.geofences = st.geofences ∧
    (get_vehicle_by_system_no st resp q).2.1.routes = st.routes := by
  cases hf : findVehicle st.vehicle_data (pyStr q) with
  | some v => simp [get_vehicle_by_system_no, hf]
  | none =>
    cases resp with
    | none => simp [get_vehicle_by_system_no, hf, get_my_tracker]
    | some env =>
      cases hb : pyStr env.State != "0" <;>
        simp [get_vehicle_by_system_no, hf, get_my_tracker, hb]

theorem get_alarm_preserves (st : St) (resp : Option (FetchEnv (List AlarmTypeEntry)))
    (tid : String) :
    (get_alarm_type_by_id st resp tid).2.1.geofences = st.geofences ∧
    (get_alarm_type_by_id st resp tid).2.1.routes = st.routes := by
  cases hf : findAlarm st.alarm_types tid with
  | some a => simp [get_alarm_type_by_id, hf]
  | none =>
    cases resp with
    | none => simp [get_alarm_type_by_id, hf, get_alarm_types]
    | some env =>
      cases hb : pyStr env.State != "0" with
      | false =>
        cases hf2 : findAlarm (env.Data.getD []) tid <;>
          simp [get_alarm_type_by_id, hf, get_alarm_types, hb, hf2]
      | true => simp [get_alarm_type_by_id, hf, get_alarm_types, hb]

/-- C2 is false as stated: one failing resolution can abort the whole
event. With the vehicle cache missing the system number and the platform
answering the vehicle refresh with a non-JSON body, the vehicle resolution
raises; the exception propagates out of `asyncio.gather` and
`push_to_soap`, and the record is never assembled nor dispatched, although
the other three resolutions are unaffected. -/
theorem C2_counterexample :
    (push_to_soap initState { baseOracles with trackerResp := none }
        ["17", "3", "8"] basePayload).outcome
      = .raised (.runtimeError "Non-JSON response") ∧
    ∀ out, (push_to_soap initState { baseOracles with trackerResp := none }
        ["17", "3", "8"] basePayload).outcome ≠ .dispatched out := by
  refine ⟨rfl, ?_⟩
  intro out h
  have h2 : PushOutcome.raised (.runtimeError "Non-JSON response")
      = PushOutcome.dispatched out := h
  cases h2

/-- C2 amended: a resolution that merely returns "not found", and a failing
reverse-geocode call (whose errors the geocoder catches internally), leave
the other resolutions untouched, yield an empty value for their field, and
the assembled record is still dispatched; but an exception escaping a cache
lookup (a refresh answered with a non-JSON body or a non-success status, or
the missing geofence/route state attribute) aborts the whole event with no
dispatch, as the counterexample shows. Here: whenever every refresh the
lookups may perform would succeed and the geofence/route attributes exist,
the record is dispatched whatever the geocoder does and whatever the
lookups find, and the location slot carries exactly the geocoder's
(possibly empty) answer. -/
theorem C2_amended (st : St) (orc : PushOracles) (allowed : List String) (p : Payload)
    (hallow : allowed.contains (alarmTypeStr p) = true)
    (hT : ∃ env, orc.trackerResp = some env ∧ pyStr env.State = "0")
    (hA : ∃ env, orc.alarmTypesResp = some env ∧ pyStr env.State = "0")
    (hZ : ∃ env, orc.zonesResp = some env ∧ pyStr env.State = "0")
    (hR : ∃ env, orc.routesResp = some env ∧ pyStr env.State = "0")
    (hgeo : ∃ zs, st.geofences = some zs) (hrou : ∃ rs, st.routes = some rs) :
    ∃ out, (push_to_soap st orc allowed p).outcome = .dispatched out ∧
      out.Current_Location = (if pyTruthy p.Latitude && pyTruthy p.Longitude
        then reverse_geocode orc.geocodeResp else none) := by
  obtain ⟨envT, hT1, hT2⟩ := hT
  obtain ⟨envA, hA1, hA2⟩ := hA
  obtain ⟨envZ, hZ1, hZ2⟩ := hZ
  obtain ⟨envR, hR1, hR2⟩ := hR
  obtain ⟨zs, hzs⟩ := hgeo
  obtain ⟨rs, hrs⟩ := hrou
  obtain ⟨v, hv⟩ := get_vehicle_ok st envT p.SystemNo hT2
  obtain ⟨a, ha⟩ := get_alarm_ok ((get_vehicle_by_system_no st (some envT) p.SystemNo).2.1)
    envA (alarmTypeStr p) hA2
  have hpres1 := get_vehicle_preserves st (some envT) p.SystemNo
  have hpres2 := get_alarm_preserves ((get_vehicle_by_system_no st (some envT) p.SystemNo).2.1)
    (some envA) (alarmTypeStr p)
  have hzs2 : ((get_alarm_type_by_id ((get_vehicle_by_system_no st (some envT) p.SystemNo).2.1)
      (some envA) (alarmTypeStr p)).2.1).geofences = some zs := by
    rw [hpres2.1, hpres1.1, hzs]
  have hrs2 : ((get_alarm_type_by_id ((get_vehicle_by_system_no st (some envT) p.SystemNo).2.1)
      (some envA) (alarmTypeStr p)).2.1).routes = some rs := by
    rw [hpres2.2, hpres1.2, hrs]
  cases hrel : relatedTaskOf (alarmTypeStr p) (pyStrip (pyStrD p.RelatedTable "")) p.RelatedID with
  | noLookup =>
    simp only [push_to_soap, hallow, not_true_eq_false, if_false, hT1, hA1, hZ1, hR1,
      hrel, hv, ha]
    exact ⟨_, rfl, rfl⟩
  | routeLookup rid =>
    obtain ⟨n, hn⟩ := get_route_ok _ rs envR rid hrs2 hR2
    simp only [push_to_soap, hallow, not_true_eq_false, if_false, hT1, hA1, hZ1, hR1,
      hrel, hv, ha, hn]
    exact ⟨_, rfl, rfl⟩
  | geofenceLookup zid =>
    obtain ⟨n, hn⟩ := get_geofence_ok _ zs envZ zid hzs2 hZ2
    simp only [push_to_soap, hallow, not_true_eq_false, if_false, hT1, hA1, hZ1, hR1,
      hrel, hv, ha, hn]
    exact ⟨_, rfl, rfl⟩

/-- Witness for C2 amended: a failing geocoder call together with
successful refresh envelopes still yields a dispatch, with an empty
location slot. -/
theorem C2_amended_witness :
    ∃ out,
      (push_to_soap { initState with geofences := some [], routes := some [] }
          { baseOracles with geocodeResp := .error () } ["17", "3", "8"]
          basePayload).outcome = .dispatched out ∧
      out.Current_Location = none := by
  obtain ⟨out, h1, h2⟩ := C2_amended
    { initState with geofences := some [], routes := some [] }
    { baseOracles with geocodeResp := .error () } ["17", "3", "8"] basePayload
    (by decide)
    ⟨⟨some "0", some ⟨some [], some [⟨some "8100000000", some "KJA 12 XY"⟩]⟩⟩, rfl, rfl⟩
    ⟨⟨some "0", some [⟨some "3", some "SOS Alarm"⟩, ⟨some "17", some "Yaw Alarm"⟩]⟩, rfl, rfl⟩
    ⟨⟨some "0", some [⟨some "z1", some "Zone One"⟩]⟩, rfl, rfl⟩
    ⟨⟨some "0", some [⟨some "r1", some "Route One"⟩]⟩, rfl, rfl⟩
    ⟨[], rfl⟩ ⟨[], rfl⟩
  refine ⟨out, h1, ?_⟩
  rw [h2]
  rfl

theorem charOfNat_toNat_small {n : Nat} (h : n < 55296) : (Char.ofNat n).toNat = n := by
  rw [Char.ofNat, dif_pos (Or.inl h)]
  rfl

theorem pyLowerChar_ne_of_isUpper {c : Char} (h : c.isUpper = true) : pyLowerChar c ≠ c := by
  have hb : 65 ≤ c.val ∧ c.val ≤ 90 := by simpa [Char.isUpper] using h
  have htn : c.toNat ≤ 90 := by
    have h2 := hb.2
    simp only [UInt32.le_def, BitVec.le_def] at h2
    exact h2
  intro heq
  have hteq : (pyLowerChar c).toNat = c.toNat := by rw [heq]
  rw [pyLowerChar, if_pos h, charOfNat_toNat_small (by omega)] at hteq
  omega

theorem map_pyLowerChar_ne {l : List Char} (h : ∃ c ∈ l, c.isUpper = true) :
    l.map pyLowerChar ≠ l := by
  induction l with
  | nil => simp at h
  | cons x xs ih =>
    obtain ⟨c, hc, hup⟩ := h
    simp only [List.map_cons]
    intro heq
    injection heq with h1 h2
    rcases List.mem_cons.mp hc with rfl | hmem
    · exact pyLowerChar_ne_of_isUpper hup h1
    · exact ih ⟨c, hmem, hup⟩ h2

theorem pyLower_ne_of_upper {s : String} (h : ∃ c ∈ s.data, c.isUpper = true) :
    pyLower s ≠ s := by
  intro heq
  exact map_pyLowerChar_ne h (congrArg String.data heq)

/-- C10 is false in one corner as stated: when another stored route's id
happens to equal the lowercased query, the lookup returns that other
route's name — not None — with zero refreshes, although the queried
uppercase RouteID is itself present in the mapping. -/
theorem C10_counterexample :
    (get_route_name
        { initState with
            routes := some [⟨some "R1", some "Route A"⟩, ⟨some "r1", some "Route B"⟩] }
        (some ⟨some "0", some [⟨some "R1", some "Route A"⟩, ⟨some "r1", some "Route B"⟩]⟩)
        (some "R1"))
      = (.ok (some "Route B"),
         { initState with
             routes := some [⟨some "R1", some "Route A"⟩, ⟨some "r1", some "Route B"⟩] },
         0) ∧
    (Except.ok (some "Route B") : Except PyErr (Option String)) ≠ .ok none := by
  exact ⟨rfl, by decide⟩

/-- C10 amended: the route lookup lowercases the queried id but compares it
case-sensitively against the stored RouteID, so the scan never matches an
entry whose stored RouteID contains an uppercase letter when queried with
that exact id; when additionally no stored RouteID equals the lowercased
query, the lookup misses both scans, performs a futile refresh (even one
that re-delivers the very same snapshot), and returns None although the
route is present in the mapping. -/
theorem C10_amended (st : St) (rs : List Route) (r : Route) (s : String)
    (hroutes : st.routes = some rs) (hmem : r ∈ rs) (hid : r.RouteID = some s)
    (hup : ∃ c ∈ s.data, c.isUpper = true)
    (hnolow : ∀ r2 ∈ rs, pyStr r2.RouteID ≠ pyLower s) :
    (pyStr r.RouteID == pyLower (pyStr (some s))) = false ∧
    (get_route_name st (some ⟨some "0", some rs⟩) (some s)).1 = .ok none ∧
    (get_route_name st (some ⟨some "0", some rs⟩) (some s)).2.2 = 1 := by
  have hlow : pyLower s ≠ s := pyLower_ne_of_upper hup
  have hfind : findRoute rs (pyLower s) = none := by
    apply List.find?_eq_none.mpr
    intro r2 hr2
    simpa using hnolow r2 hr2
  refine ⟨?_, ?_, ?_⟩
  · rw [hid]
    simpa [pyStr] using Ne.symm hlow
  · simp [get_route_name, hroutes, pyStr, hfind, get_routes]
  · simp [get_route_name, hroutes, pyStr, hfind, get_routes]

/-- Witness for C10 amended: the single stored route "R1", looked up by its
own exact id, is never matched — the lookup refreshes once in vain and
reports not-found. -/
theorem C10_amended_witness :
    (get_route_name { initState with routes := some [⟨some "R1", some "Route A"⟩] }
        (some ⟨some "0", some [⟨some "R1", some "Route A"⟩]⟩) (some "R1")).1 = .ok none ∧
    (get_route_name { initState with routes := some [⟨some "R1", some "Route A"⟩] }
        (some ⟨some "0", some [⟨some "R1", some "Route A"⟩]⟩) (some "R1")).2.2 = 1 := by
  obtain ⟨h1, h2, h3⟩ := C10_amended
    { initState with routes := some [⟨some "R1", some "Route A"⟩] }
    [⟨some "R1", some "Route A"⟩] ⟨some "R1", some "Route A"⟩ "R1"
    rfl (by decide) rfl ⟨'R', by decide, by decide⟩ (by decide)
  exact ⟨h2, h3⟩
